import Mathlib

set_option maxRecDepth 8192

/- Verification development for the esap-events-api request handlers.
   The definitions below are a shallow embedding of the handler variants in
   src/api/events.ts (four concatenated revisions) and the three unnamed
   handler files, together with computable models of the ECMAScript string
   and Date primitives those handlers call. -/

/- Model of JavaScript `s.split(c)` for a one-character separator. -/
def splitCharAux (c : Char) : List Char → List Char → List (List Char)
  | [], acc => [acc.reverse]
  | x :: xs, acc =>
    if x == c then acc.reverse :: splitCharAux c xs [] else splitCharAux c xs (x :: acc)

def jsSplitChar (c : Char) (s : String) : List String :=
  (splitCharAux c s.data []).map fun l => ⟨l⟩

/- Model of JavaScript `s.replaceAll(c, "")` for a one-character pattern. -/
def jsRemoveChar (c : Char) (s : String) : String :=
  ⟨s.data.filter fun x => x != c⟩

/- Model of JavaScript `s.trim()` on ASCII whitespace. -/
def jsTrim (s : String) : String :=
  ⟨((s.data.dropWhile Char.isWhitespace).reverse.dropWhile Char.isWhitespace).reverse⟩

/- Model of JavaScript `s.toUpperCase()` on ASCII text. -/
def jsToUpper (s : String) : String :=
  ⟨s.data.map Char.toUpper⟩

/- Model of JavaScript `arr.join(",")`. -/
def joinComma : List String → String
  | [] => ""
  | [x] => x
  | x :: y :: xs => x ++ "," ++ joinComma (y :: xs)

def digitChar (n : Nat) : Char := Char.ofNat (48 + n)

def pad2 (n : Nat) : String := ⟨[digitChar (n / 10 % 10), digitChar (n % 10)]⟩

def pad3 (n : Nat) : String :=
  ⟨[digitChar (n / 100 % 10), digitChar (n / 10 % 10), digitChar (n % 10)]⟩

def pad4 (n : Nat) : String :=
  ⟨[digitChar (n / 1000 % 10), digitChar (n / 100 % 10), digitChar (n / 10 % 10),
    digitChar (n % 10)]⟩

/- A UTC calendar instant, the observable content of a valid JavaScript Date. -/
structure UTCDateTime where
  year : Nat
  month : Nat
  day : Nat
  hour : Nat
  minute : Nat
  second : Nat
  ms : Nat
deriving DecidableEq

def isLeapYear (y : Nat) : Bool := (y % 4 == 0 && y % 100 != 0) || y % 400 == 0

def daysInMonth (y m : Nat) : Nat :=
  if m == 2 then (if isLeapYear y then 29 else 28)
  else if m == 4 || m == 6 || m == 9 || m == 11 then 30
  else 31

def mkUTC (y mo dy h mi se ms : Nat) : Option UTCDateTime :=
  if 1 ≤ mo ∧ mo ≤ 12 ∧ 1 ≤ dy ∧ dy ≤ daysInMonth y mo ∧ h ≤ 23 ∧ mi ≤ 59 ∧ se ≤ 59 ∧ ms ≤ 999
  then some ⟨y, mo, dy, h, mi, se, ms⟩
  else none

def d2 (a b : Char) : Option Nat :=
  if a.isDigit && b.isDigit then some ((a.toNat - 48) * 10 + (b.toNat - 48)) else none

def d3 (a b c : Char) : Option Nat :=
  if a.isDigit && b.isDigit && c.isDigit then
    some ((a.toNat - 48) * 100 + (b.toNat - 48) * 10 + (c.toNat - 48))
  else none

def d4 (a b c e : Char) : Option Nat :=
  if a.isDigit && b.isDigit && c.isDigit && e.isDigit then
    some ((a.toNat - 48) * 1000 + (b.toNat - 48) * 100 + (c.toNat - 48) * 10 + (e.toNat - 48))
  else none

/- Model of ECMAScript Date parsing (`new Date(string)`), restricted to
   UTC-designated ISO-8601 date-times and plain calendar dates. Zone-less
   date-time strings (which the platform reads in the host zone) are outside
   this model and map to none, like every string the platform rejects. -/
def jsParseDate (s : String) : Option UTCDateTime :=
  match s.data with
  | [y1, y2, y3, y4, '-', o1, o2, '-', e1, e2] =>
    (d4 y1 y2 y3 y4).bind fun y => (d2 o1 o2).bind fun mo => (d2 e1 e2).bind fun dy =>
      mkUTC y mo dy 0 0 0 0
  | [y1, y2, y3, y4, '-', o1, o2, '-', e1, e2, 'T', h1, h2, ':', n1, n2, 'Z'] =>
    (d4 y1 y2 y3 y4).bind fun y => (d2 o1 o2).bind fun mo => (d2 e1 e2).bind fun dy =>
      (d2 h1 h2).bind fun h => (d2 n1 n2).bind fun mi => mkUTC y mo dy h mi 0 0
  | [y1, y2, y3, y4, '-', o1, o2, '-', e1, e2, 'T', h1, h2, ':', n1, n2, ':', s1, s2, 'Z'] =>
    (d4 y1 y2 y3 y4).bind fun y => (d2 o1 o2).bind fun mo => (d2 e1 e2).bind fun dy =>
      (d2 h1 h2).bind fun h => (d2 n1 n2).bind fun mi => (d2 s1 s2).bind fun se =>
        mkUTC y mo dy h mi se 0
  | [y1, y2, y3, y4, '-', o1, o2, '-', e1, e2, 'T', h1, h2, ':', n1, n2, ':', s1, s2,
     '.', a, b, c, 'Z'] =>
    (d4 y1 y2 y3 y4).bind fun y => (d2 o1 o2).bind fun mo => (d2 e1 e2).bind fun dy =>
      (d2 h1 h2).bind fun h => (d2 n1 n2).bind fun mi => (d2 s1 s2).bind fun se =>
        (d3 a b c).bind fun ms => mkUTC y mo dy h mi se ms
  | _ => none

/- Model of Date.prototype.toISOString for four-digit years. -/
def toISOString (t : UTCDateTime) : String :=
  pad4 t.year ++ "-" ++ pad2 t.month ++ "-" ++ pad2 t.day ++ "T" ++
  pad2 t.hour ++ ":" ++ pad2 t.minute ++ ":" ++ pad2 t.second ++ "." ++ pad3 t.ms ++ "Z"

/- Model of the optional-chained error value the catch blocks sniff:
   err?.response?.status, err?.response?.data?.error?.message, err?.message. -/
structure JsDataErr where
  message : Option String
deriving DecidableEq

structure JsData where
  error : Option JsDataErr
deriving DecidableEq

structure JsResp where
  status : Option Nat
  data : Option JsData
deriving DecidableEq

structure JsErr where
  response : Option JsResp
  message : Option String
deriving DecidableEq

/- JavaScript falsiness of an optional string: undefined and "" are falsy. -/
def pick : Option String → Option String
  | some s => if s == "" then none else some s
  | none => none

/- JavaScript falsiness of an optional number: undefined and 0 are falsy. -/
def pickNat : Option Nat → Option Nat
  | some n => if n == 0 then none else some n
  | none => none

/- Truthiness test used by the `!title` style field validation. -/
def truthy : Option String → Bool
  | some s => s != ""
  | none => false

def nestedErrMsg (e : JsErr) : Option String :=
  ((e.response.bind JsResp.data).bind JsData.error).bind JsDataErr.message

/- Message precedence of the event-creation catch blocks:
   err?.response?.data?.error?.message || err?.message || "Internal error". -/
def errMsg (e : JsErr) : String :=
  ((pick (nestedErrMsg e)).orElse fun _ => pick e.message).getD "Internal error"

/- Model of the ECMAScript String() conversion applied to an Error value. -/
def jsStringOfErr (e : JsErr) : String := "Error: " ++ e.message.getD ""

/- Error mapper of the diagnostic handler (src/unnamed/part_000, lines 36-40):
   const msg = err?.response?.data?.error?.message || err?.message || String(err);
   const code = err?.response?.status || 500. -/
def mapErrorDiag (e : JsErr) : Nat × String :=
  ((pickNat (e.response.bind JsResp.status)).getD 500,
   ((pick (nestedErrMsg e)).orElse fun _ => pick e.message).getD (jsStringOfErr e))

/- The fixed origin allow-list (src/api/events.ts lines 5-8). -/
def ORIGINS : List String := ["https://embedded-purdue.github.io", "http://localhost:3000"]

/- allowCors (src/api/events.ts lines 10-18), as the response headers it sets. -/
def allowCors (origin : Option String) : List (String × String) :=
  (if ORIGINS.contains (origin.getD "") then
    [("Access-Control-Allow-Origin", origin.getD ""), ("Vary", "Origin")]
  else []) ++
  [("Access-Control-Allow-Methods", "GET, POST, OPTIONS"),
   ("Access-Control-Allow-Headers", "Content-Type")]

/- Header block of src/unnamed/part_001 lines 20-26 (only the method list differs). -/
def allowCorsP1 (origin : Option String) : List (String × String) :=
  (if ORIGINS.contains (origin.getD "") then
    [("Access-Control-Allow-Origin", origin.getD ""), ("Vary", "Origin")]
  else []) ++
  [("Access-Control-Allow-Methods", "POST, OPTIONS"),
   ("Access-Control-Allow-Headers", "Content-Type")]

/- Process-wide configuration read through process.env. -/
structure Env where
  calendarId : Option String
  timezone : Option String
  saEmail : Option String
  saKey : Option String
deriving DecidableEq

def defaultTZstr : String := "America/Indiana/Indianapolis"

/- process.env.TIMEZONE || "America/Indiana/Indianapolis". -/
def envTZ (env : Env) : String :=
  match env.timezone with
  | some s => if s == "" then defaultTZstr else s
  | none => defaultTZstr

/- mustEnv (src/api/events.ts lines 20-24): throw on an absent or empty value. -/
def mustEnv (v : Option String) (name : String) : Except JsErr String :=
  match v with
  | some s =>
    if s == "" then Except.error ⟨none, some ("Missing env: " ++ name)⟩ else Except.ok s
  | none => Except.error ⟨none, some ("Missing env: " ++ name)⟩

/- calendarClient (src/api/events.ts lines 26-36): reads both service-account
   settings; the newline un-escaping of the key has no further observable
   effect here, so the client itself is represented by Unit. -/
def calendarClient (env : Env) : Except JsErr Unit :=
  match mustEnv env.saEmail "GOOGLE_SA_EMAIL" with
  | Except.error e => Except.error e
  | Except.ok _ =>
    match mustEnv env.saKey "GOOGLE_SA_PRIVATE_KEY" with
    | Except.error e => Except.error e
    | Except.ok _ => Except.ok ()

/- A { dateTime, timeZone } pair as sent to the upstream calendar API. -/
structure GDate where
  dateTime : String
  timeZone : String
deriving DecidableEq

/- The requestBody of cal.events.insert; recurrence = none means the field
   is omitted from the payload, some l means it is present with value l. -/
structure InsertPayload where
  summary : String
  description : Option String
  location : Option String
  start : GDate
  end_ : GDate
  recurrence : Option (List String)
deriving DecidableEq

structure Inserted where
  id : String
  htmlLink : String
deriving DecidableEq

inductive RespBody
  | empty
  | text (s : String)
  | okRoute (route : String) (version : Nat)
  | created (id : String) (htmlLink : String)
  | createdLink (id : String) (link : String)
  | diagErr (error : String)
deriving DecidableEq

/- Outcome of one handler invocation, minus the CORS headers. -/
structure CoreOut where
  status : Nat
  body : RespBody
  upstreamCall : Option InsertPayload
  credentialUsed : Bool
deriving DecidableEq

/- Outcome of one handler invocation including the headers set by allowCors. -/
structure Outcome where
  status : Nat
  body : RespBody
  headers : List (String × String)
  upstreamCall : Option InsertPayload
  credentialUsed : Bool
deriving DecidableEq

/- recurrence?: string | string[] of the main handler. -/
inductive RecInput
  | arr (lines : List String)
  | str (s : String)
deriving DecidableEq

/- Request body shape of the main handler (src/api/events.ts lines 67-78). -/
structure BodyV3 where
  title : Option String := none
  start : Option String := none
  end_ : Option String := none
  location : Option String := none
  desc : Option String := none
  recurrence : Option RecInput := none
  exDates : Option (List String) := none
deriving DecidableEq

/- The RRULE prefix test /^RRULE:/i applied by both recurrence normalizers. -/
def isRRulePrefixed (r : String) : Bool :=
  (r.data.take 6).map Char.toUpper == "RRULE:".data

/- Recurrence normalization of the main handler (src/api/events.ts lines 85-90):
   keep lines passing the case-insensitive prefix test, trimmed, unchanged. -/
def normalizeRecurrenceV3 : Option RecInput → List String
  | some (RecInput.arr rs) => (rs.filter isRRulePrefixed).map jsTrim
  | some (RecInput.str s) => if isRRulePrefixed s then [jsTrim s] else []
  | none => []

/- Recurrence normalization of the uppercasing revision (src/api/events.ts
   lines 272-275): push the whole matching line upper-cased. -/
def normalizeRecurrenceV2 (recurrence : Option String) : List String :=
  match recurrence with
  | some s => if s != "" && isRRulePrefixed s then [jsToUpper s] else []
  | none => []

/- Time-of-day digits a timed EXDATE stamp uses, from the start local string:
   const [, timePart = "00:00:00"] = startLocal.split("T");
   const hhmmss = timePart.length === 5 ? timePart + ":00" : timePart;
   then hhmmss.replaceAll(":", ""). -/
def startTimeDigits (startLocal : String) : String :=
  jsRemoveChar ':'
    (if (((jsSplitChar 'T' startLocal).get? 1).getD "00:00:00").length == 5 then
      (((jsSplitChar 'T' startLocal).get? 1).getD "00:00:00") ++ ":00"
    else ((jsSplitChar 'T' startLocal).get? 1).getD "00:00:00")

/- buildTimedExDateLines (src/api/events.ts lines 39-55). -/
def buildTimedExDateLines (exDates : Option (List String)) (startLocal : String)
    (tz : String) : List String :=
  match exDates with
  | none => []
  | some ds =>
    if ds.isEmpty then []
    else
      ["EXDATE;TZID=" ++ tz ++ ":" ++
        joinComma (ds.map fun d => jsRemoveChar '-' d ++ "T" ++ startTimeDigits startLocal)]

/- buildExDateLine of the all-day revision (src/api/events.ts lines 243-251). -/
def buildExDateLine (exDates : Option (List String)) : Option String :=
  match exDates with
  | none => none
  | some ds =>
    if ds.isEmpty then none
    else
      if ((ds.map (jsRemoveChar '-')).filter
            fun s => s.length == 8 && s.data.all Char.isDigit).isEmpty then none
      else
        some ("EXDATE;VALUE=DATE:" ++
          joinComma ((ds.map (jsRemoveChar '-')).filter
            fun s => s.length == 8 && s.data.all Char.isDigit))

/- Main handler (src/api/events.ts lines 57-114), split into its computation
   and the header side effect of allowCors. The upstream cal.events.insert
   call is a parameter; upstreamCall records the requestBody it was given,
   credentialUsed records whether calendarClient() ran. -/
def v3payload (env : Env) (b : BodyV3) : InsertPayload :=
  { summary := b.title.getD "", description := b.desc, location := b.location,
    start := { dateTime := b.start.getD "", timeZone := envTZ env },
    end_ := { dateTime := b.end_.getD "", timeZone := envTZ env },
    recurrence :=
      if (normalizeRecurrenceV3 b.recurrence ++
          buildTimedExDateLines b.exDates (b.start.getD "") (envTZ env)).isEmpty
      then none
      else some (normalizeRecurrenceV3 b.recurrence ++
          buildTimedExDateLines b.exDates (b.start.getD "") (envTZ env)) }

def handlerV3post (env : Env) (ins : InsertPayload → Except JsErr Inserted)
    (b : BodyV3) : CoreOut :=
  match mustEnv env.calendarId "CALENDAR_ID" with
  | Except.error e => ⟨500, RespBody.text (errMsg e), none, false⟩
  | Except.ok _ =>
    if !truthy b.title || !truthy b.start || !truthy b.end_ then
      ⟨400, RespBody.text "Missing title/start/end", none, false⟩
    else
      match calendarClient env with
      | Except.error e => ⟨500, RespBody.text (errMsg e), none, true⟩
      | Except.ok _ =>
        match ins (v3payload env b) with
        | Except.error e => ⟨500, RespBody.text (errMsg e), some (v3payload env b), true⟩
        | Except.ok dta =>
          ⟨200, RespBody.created dta.id dta.htmlLink, some (v3payload env b), true⟩

def handlerV3core (env : Env) (ins : InsertPayload → Except JsErr Inserted)
    (method : String) (body? : Option BodyV3) : CoreOut :=
  if method == "OPTIONS" then ⟨204, RespBody.empty, none, false⟩
  else if method == "GET" then ⟨200, RespBody.okRoute "/api/events" 3, none, false⟩
  else if method != "POST" then ⟨405, RespBody.text "Use POST", none, false⟩
  else handlerV3post env ins (body?.getD {})

def handlerV3 (env : Env) (ins : InsertPayload → Except JsErr Inserted)
    (method : String) (origin : Option String) (body? : Option BodyV3) : Outcome :=
  { status := (handlerV3core env ins method body?).status,
    body := (handlerV3core env ins method body?).body,
    headers := allowCors origin,
    upstreamCall := (handlerV3core env ins method body?).upstreamCall,
    credentialUsed := (handlerV3core env ins method body?).credentialUsed }

/- start/end input of the normalizeDateInput revision: either a plain string
   or an object carrying a dateTime key and an optional timeZone. -/
inductive DateInput
  | obj (dateTime : String) (timeZone : Option String)
  | str (s : String)
deriving DecidableEq

/- Truthiness of the optional start/end value: objects are truthy, strings
   are truthy when non-empty, an absent value is falsy. -/
def truthyDate : Option DateInput → Bool
  | some (DateInput.obj _ _) => true
  | some (DateInput.str s) => s != ""
  | none => false

/- normalizeDateInput (src/api/events.ts lines 340-353). -/
def normalizeDateInput (input : Option DateInput) (fallbackTZ : String) :
    Except String GDate :=
  match input with
  | some (DateInput.obj dt tz) =>
    if dt == "" then Except.error "Invalid dateTime"
    else
      Except.ok
        { dateTime := dt,
          timeZone := match tz with
            | some t => if t == "" then fallbackTZ else t
            | none => fallbackTZ }
  | some (DateInput.str s) =>
    match jsParseDate s with
    | none => Except.error "Invalid time value"
    | some d => Except.ok { dateTime := toISOString d, timeZone := fallbackTZ }
  | none => Except.error "Invalid time value"

/- Request body of the normalizeDateInput revision (src/api/events.ts
   lines 355-400); recurrence = some l models an array value, none models an
   absent or non-array value (Array.isArray fails on those). -/
structure BodyV4 where
  title : Option String := none
  start : Option DateInput := none
  end_ : Option DateInput := none
  location : Option String := none
  desc : Option String := none
  recurrence : Option (List String) := none
deriving DecidableEq

/- Handler of the normalizeDateInput revision (src/api/events.ts 355-400). -/
def v4payload (b : BodyV4) (st en : GDate) : InsertPayload :=
  { summary := b.title.getD "", description := b.desc, location := b.location,
    start := st, end_ := en, recurrence := some (b.recurrence.getD []) }

def handlerV4post (env : Env) (ins : InsertPayload → Except JsErr Inserted)
    (b : BodyV4) : CoreOut :=
  match mustEnv env.calendarId "CALENDAR_ID" with
  | Except.error e => ⟨500, RespBody.text (errMsg e), none, false⟩
  | Except.ok _ =>
    if !truthy b.title || !truthyDate b.start || !truthyDate b.end_ then
      ⟨400, RespBody.text "Missing title/start/end", none, false⟩
    else
      match normalizeDateInput b.start (envTZ env) with
      | Except.error m => ⟨500, RespBody.text (errMsg ⟨none, some m⟩), none, false⟩
      | Except.ok st =>
        match normalizeDateInput b.end_ (envTZ env) with
        | Except.error m => ⟨500, RespBody.text (errMsg ⟨none, some m⟩), none, false⟩
        | Except.ok en =>
          match calendarClient env with
          | Except.error e => ⟨500, RespBody.text (errMsg e), none, true⟩
          | Except.ok _ =>
            match ins (v4payload b st en) with
            | Except.error e =>
              ⟨500, RespBody.text (errMsg e), some (v4payload b st en), true⟩
            | Except.ok dta =>
              ⟨200, RespBody.created dta.id dta.htmlLink, some (v4payload b st en), true⟩

def handlerV4core (env : Env) (ins : InsertPayload → Except JsErr Inserted)
    (method : String) (body? : Option BodyV4) : CoreOut :=
  if method == "OPTIONS" then ⟨204, RespBody.empty, none, false⟩
  else if method == "GET" then ⟨200, RespBody.okRoute "/api/events" 2, none, false⟩
  else if method != "POST" then ⟨405, RespBody.text "Use POST", none, false⟩
  else handlerV4post env ins (body?.getD {})

/- Handler of src/unnamed/part_001: no GET branch, no env presence checks
   (non-null assertions), catch responds 500 with e.message || "error". -/
def handlerP1post (env : Env) (ins : InsertPayload → Except JsErr Inserted)
    (b : BodyV3) : CoreOut :=
  if !truthy b.title || !truthy b.start || !truthy b.end_ then
    ⟨400, RespBody.text "Missing title/start/end", none, false⟩
  else
    match jsParseDate (b.start.getD "") with
      | none => ⟨500, RespBody.text "Invalid time value", none, true⟩
      | some sd =>
        match jsParseDate (b.end_.getD "") with
        | none => ⟨500, RespBody.text "Invalid time value", none, true⟩
        | some ed =>
          let payload : InsertPayload :=
            { summary := b.title.getD "", description := b.desc, location := b.location,
              start := { dateTime := toISOString sd, timeZone := envTZ env },
              end_ := { dateTime := toISOString ed, timeZone := envTZ env },
              recurrence := none }
          match ins payload with
          | Except.error e => ⟨500, RespBody.text ((pick e.message).getD "error"), some payload, true⟩
          | Except.ok dta => ⟨200, RespBody.createdLink dta.id dta.htmlLink, some payload, true⟩

def handlerP1core (env : Env) (ins : InsertPayload → Except JsErr Inserted)
    (method : String) (body? : Option BodyV3) : CoreOut :=
  if method == "OPTIONS" then ⟨204, RespBody.empty, none, false⟩
  else if method != "POST" then ⟨405, RespBody.text "Use POST", none, false⟩
  else handlerP1post env ins (body?.getD {})

def handlerP1 (env : Env) (ins : InsertPayload → Except JsErr Inserted)
    (method : String) (origin : Option String) (body? : Option BodyV3) : Outcome :=
  { status := (handlerP1core env ins method body?).status,
    body := (handlerP1core env ins method body?).body,
    headers := allowCorsP1 origin,
    upstreamCall := (handlerP1core env ins method body?).upstreamCall,
    credentialUsed := (handlerP1core env ins method body?).credentialUsed }

/- Handler of src/unnamed/part_002 (same code as the second revision inside
   src/api/events.ts): GET liveness branch with version 1, instant-converted
   dates, errMsg-mapped catch. -/
def handlerP2core (env : Env) (ins : InsertPayload → Except JsErr Inserted)
    (method : String) (body? : Option BodyV3) : CoreOut :=
  if method == "OPTIONS" then ⟨204, RespBody.empty, none, false⟩
  else if method == "GET" then ⟨200, RespBody.okRoute "/api/events" 1, none, false⟩
  else if method != "POST" then ⟨405, RespBody.text "Use POST", none, false⟩
  else
    match mustEnv env.calendarId "CALENDAR_ID" with
    | Except.error e => ⟨500, RespBody.text (errMsg e), none, false⟩
    | Except.ok _ =>
      let b := body?.getD {}
      if !truthy b.title || !truthy b.start || !truthy b.end_ then
        ⟨400, RespBody.text "Missing title/start/end", none, false⟩
      else
        match calendarClient env with
        | Except.error e => ⟨500, RespBody.text (errMsg e), none, true⟩
        | Except.ok _ =>
          match jsParseDate (b.start.getD "") with
          | none => ⟨500, RespBody.text (errMsg ⟨none, some "Invalid time value"⟩), none, true⟩
          | some sd =>
            match jsParseDate (b.end_.getD "") with
            | none => ⟨500, RespBody.text (errMsg ⟨none, some "Invalid time value"⟩), none, true⟩
            | some ed =>
              let payload : InsertPayload :=
                { summary := b.title.getD "", description := b.desc, location := b.location,
                  start := { dateTime := toISOString sd, timeZone := envTZ env },
                  end_ := { dateTime := toISOString ed, timeZone := envTZ env },
                  recurrence := none }
              match ins payload with
              | Except.error e => ⟨500, RespBody.text (errMsg e), some payload, true⟩
              | Except.ok dta => ⟨200, RespBody.created dta.id dta.htmlLink, some payload, true⟩

/- Concrete fixtures used by the closed counterexamples and witnesses. -/
def envW : Env :=
  { calendarId := some "primary-calendar", timezone := none,
    saEmail := some "svc@example.iam.gserviceaccount.com", saKey := some "PEMKEY" }

def bodyW : BodyV3 :=
  { title := some "Meeting", start := some "2025-09-21T16:00:00",
    end_ := some "2025-09-21T17:00:00" }

def insOkW : InsertPayload → Except JsErr Inserted :=
  fun _ => Except.ok ⟨"evt-1", "https://calendar.example/evt-1"⟩

def e403W : JsErr :=
  { response := some { status := some 403, data := some { error := some { message := some "Forbidden" } } },
    message := none }

def bodyV4W : BodyV4 :=
  { title := some "Meeting", start := some (DateInput.str "2025-09-21T20:00:00Z"),
    end_ := some (DateInput.str "2025-09-21T21:00:00Z") }

def bodyV4objW : BodyV4 :=
  { title := some "Meeting",
    start := some (DateInput.obj "2025-09-21T16:00:00" (some "America/Indiana/Indianapolis")),
    end_ := some (DateInput.obj "2025-09-21T17:00:00" (some "America/Indiana/Indianapolis")) }

def bodyTitleOnlyW : BodyV3 := { title := some "Only title" }

/- Shape predicates used by the exception-date stamping claims. -/

/- A calendar date of the documented "YYYY-MM-DD" input shape. -/
def IsDateShape (d : String) : Prop :=
  ∃ a b c e f g h i,
    (a.isDigit ∧ b.isDigit ∧ c.isDigit ∧ e.isDigit ∧
     f.isDigit ∧ g.isDigit ∧ h.isDigit ∧ i.isDigit) ∧
    d.data = [a, b, c, e, '-', f, g, '-', h, i]

/- A time part of the documented "HH:mm" shape. -/
def IsHM (t : String) : Prop :=
  ∃ a b c e, (a.isDigit ∧ b.isDigit ∧ c.isDigit ∧ e.isDigit) ∧ t.data = [a, b, ':', c, e]

/- A time part of the documented "HH:mm:ss" shape. -/
def IsHMS (t : String) : Prop :=
  ∃ a b c e f g,
    (a.isDigit ∧ b.isDigit ∧ c.isDigit ∧ e.isDigit ∧ f.isDigit ∧ g.isDigit) ∧
    t.data = [a, b, ':', c, e, ':', f, g]

/- The documented shapes of the start local string: either no time part at
   all, or a time part in "HH:mm" or "HH:mm:ss" form. -/
def TimeShapeHyp (s : String) : Prop :=
  (jsSplitChar 'T' s).get? 1 = none ∨
  ∃ t, (jsSplitChar 'T' s).get? 1 = some t ∧ (IsHM t ∨ IsHMS t)

/- Decides whether a stamp is eight digits, a literal 'T', then six digits. -/
def isStampShapeB (st : String) : Bool :=
  match st.data with
  | [a, b, c, e, f, g, h, i, 'T', j, k, l, m, n, o] =>
    a.isDigit && b.isDigit && c.isDigit && e.isDigit && f.isDigit && g.isDigit &&
    h.isDigit && i.isDigit && j.isDigit && k.isDigit && l.isDigit && m.isDigit &&
    n.isDigit && o.isDigit
  | _ => false

/- Helper lemmas shared by the claim theorems. -/

theorem stringDataAppend (s t : String) : (s ++ t).data = s.data ++ t.data := by
  cases s
  cases t
  rfl

theorem mustEnv_ok (v : Option String) (n : String) (h : truthy v = true) :
    mustEnv v n = Except.ok (v.getD "") := by
  cases v with
  | none => simp [truthy] at h
  | some s =>
    simp only [truthy, bne_iff_ne, ne_eq] at h
    simp [mustEnv, h]

theorem calendarClient_ok (env : Env) (hem : truthy env.saEmail = true)
    (hkey : truthy env.saKey = true) : calendarClient env = Except.ok () := by
  simp [calendarClient, mustEnv_ok _ _ hem, mustEnv_ok _ _ hkey]

theorem digit_bne_dash {c : Char} (h : c.isDigit = true) : (c != '-') = true := by
  simp only [bne_iff_ne, ne_eq]
  rintro rfl
  exact absurd h (by decide)

theorem digit_bne_colon {c : Char} (h : c.isDigit = true) : (c != ':') = true := by
  simp only [bne_iff_ne, ne_eq]
  rintro rfl
  exact absurd h (by decide)

theorem buildTimedExDateLines_eq (ds : List String) (s tz : String) (h : ds ≠ []) :
    buildTimedExDateLines (some ds) s tz =
      ["EXDATE;TZID=" ++ tz ++ ":" ++
        joinComma (ds.map fun d => jsRemoveChar '-' d ++ "T" ++ startTimeDigits s)] := by
  cases ds with
  | nil => exact absurd rfl h
  | cons a l => rfl

theorem startTimeDigits_noT (s : String) (h : jsSplitChar 'T' s = [s]) :
    startTimeDigits s = "000000" := by
  unfold startTimeDigits
  rw [h]
  rfl

theorem startTimeDigits_hm (s t : String) (h : (jsSplitChar 'T' s).get? 1 = some t)
    (h5 : t.length = 5) :
    startTimeDigits s = jsRemoveChar ':' (t ++ ":00") := by
  unfold startTimeDigits
  rw [h]
  simp [Option.getD, h5]

theorem startTimeDigits_notHm (s t : String) (h : (jsSplitChar 'T' s).get? 1 = some t)
    (h5 : t.length ≠ 5) :
    startTimeDigits s = jsRemoveChar ':' t := by
  unfold startTimeDigits
  rw [h]
  simp [Option.getD, h5]

theorem dateShape_digits {d : String} (hd : IsDateShape d) :
    ∃ a b c e f g h i,
      (a.isDigit ∧ b.isDigit ∧ c.isDigit ∧ e.isDigit ∧
       f.isDigit ∧ g.isDigit ∧ h.isDigit ∧ i.isDigit) ∧
      (jsRemoveChar '-' d).data = [a, b, c, e, f, g, h, i] := by
  obtain ⟨a, b, c, e, f, g, h, i, hdig, hdata⟩ := hd
  obtain ⟨q1, q2, q3, q4, q5, q6, q7, q8⟩ := hdig
  refine ⟨a, b, c, e, f, g, h, i, ⟨q1, q2, q3, q4, q5, q6, q7, q8⟩, ?_⟩
  simp [jsRemoveChar, hdata, List.filter_cons, digit_bne_dash q1, digit_bne_dash q2,
    digit_bne_dash q3, digit_bne_dash q4, digit_bne_dash q5, digit_bne_dash q6,
    digit_bne_dash q7, digit_bne_dash q8]

theorem timeShape_digits {s : String} (ht : TimeShapeHyp s) :
    ∃ a b c e f g,
      (a.isDigit ∧ b.isDigit ∧ c.isDigit ∧ e.isDigit ∧ f.isDigit ∧ g.isDigit) ∧
      (startTimeDigits s).data = [a, b, c, e, f, g] := by
  rcases ht with h | ⟨t, h, hshape⟩
  · refine ⟨'0', '0', '0', '0', '0', '0', by decide, ?_⟩
    unfold startTimeDigits
    rw [h]
    rfl
  · rcases hshape with ⟨a, b, c, e, hdig, hdata⟩ | ⟨a, b, c, e, f, g, hdig, hdata⟩
    · obtain ⟨q1, q2, q3, q4⟩ := hdig
      refine ⟨a, b, c, e, '0', '0', ⟨q1, q2, q3, q4, by decide, by decide⟩, ?_⟩
      have h5 : t.length = 5 := by simp [String.length, hdata]
      rw [startTimeDigits_hm s t h h5]
      simp [jsRemoveChar, stringDataAppend, hdata, List.filter_cons,
        digit_bne_colon q1, digit_bne_colon q2, digit_bne_colon q3, digit_bne_colon q4]
    · obtain ⟨q1, q2, q3, q4, q5, q6⟩ := hdig
      refine ⟨a, b, c, e, f, g, ⟨q1, q2, q3, q4, q5, q6⟩, ?_⟩
      have h8 : t.length ≠ 5 := by simp [String.length, hdata]
      rw [startTimeDigits_notHm s t h h8]
      simp [jsRemoveChar, hdata, List.filter_cons,
        digit_bne_colon q1, digit_bne_colon q2, digit_bne_colon q3,
        digit_bne_colon q4, digit_bne_colon q5, digit_bne_colon q6]

theorem isStampShapeB_of {A B : String}
    (hA : ∃ a b c e f g h i,
      (a.isDigit ∧ b.isDigit ∧ c.isDigit ∧ e.isDigit ∧
       f.isDigit ∧ g.isDigit ∧ h.isDigit ∧ i.isDigit) ∧
      A.data = [a, b, c, e, f, g, h, i])
    (hB : ∃ a b c e f g,
      (a.isDigit ∧ b.isDigit ∧ c.isDigit ∧ e.isDigit ∧ f.isDigit ∧ g.isDigit) ∧
      B.data = [a, b, c, e, f, g]) :
    isStampShapeB (A ++ "T" ++ B) = true := by
  obtain ⟨a, b, c, e, f, g, h, i, hd1, hAd⟩ := hA
  obtain ⟨j, k, l, m, n, o, hd2, hBd⟩ := hB
  obtain ⟨q1, q2, q3, q4, q5, q6, q7, q8⟩ := hd1
  obtain ⟨r1, r2, r3, r4, r5, r6⟩ := hd2
  have hdata : (A ++ "T" ++ B).data = [a, b, c, e, f, g, h, i, 'T', j, k, l, m, n, o] := by
    simp [stringDataAppend, hAd, hBd]
  simp [isStampShapeB, hdata, q1, q2, q3, q4, q5, q6, q7, q8, r1, r2, r3, r4, r5, r6]

/- Claim theorems. -/

/-- C2 (corrected): each recurrence normalizer checks the RRULE prefix
case-insensitively and drops failing lines without error, but neither variant
strips internal whitespace or requires a FREQ= body: the array-accepting
normalizer re-emits matching lines trimmed and otherwise unchanged, and the
single-string variant re-emits the whole line upper-cased with its internal
whitespace intact, so the example line is re-emitted as
"rrule: freq=weekly;interval=1;byday=su" respectively
"RRULE: FREQ=WEEKLY;INTERVAL=1;BYDAY=SU". -/
theorem C2_amended :
    (∀ r, isRRulePrefixed r = false →
      normalizeRecurrenceV3 (some (RecInput.str r)) = [] ∧
      normalizeRecurrenceV2 (some r) = [] ∧
      ∀ rs, normalizeRecurrenceV3 (some (RecInput.arr (r :: rs))) =
        normalizeRecurrenceV3 (some (RecInput.arr rs))) ∧
    (∀ r, isRRulePrefixed r = true →
      normalizeRecurrenceV3 (some (RecInput.str r)) = [jsTrim r]) ∧
    (∀ r, r ≠ "" → isRRulePrefixed r = true →
      normalizeRecurrenceV2 (some r) = [jsToUpper r]) ∧
    normalizeRecurrenceV3 (some (RecInput.str "rrule: freq=weekly;interval=1;byday=su")) =
      ["rrule: freq=weekly;interval=1;byday=su"] ∧
    normalizeRecurrenceV2 (some "rrule: freq=weekly;interval=1;byday=su") =
      ["RRULE: FREQ=WEEKLY;INTERVAL=1;BYDAY=SU"] ∧
    normalizeRecurrenceV3 (some (RecInput.str "not a rule")) = [] := by
  refine ⟨?_, ?_, ?_, ?_, ?_, ?_⟩
  · intro r h
    refine ⟨?_, ?_, ?_⟩
    · simp [normalizeRecurrenceV3, h]
    · simp [normalizeRecurrenceV2, h]
    · intro rs
      simp [normalizeRecurrenceV3, List.filter_cons, h]
  · intro r h
    simp [normalizeRecurrenceV3, h]
  · intro r hne h
    simp [normalizeRecurrenceV2, h, bne_iff_ne, hne]
  · decide
  · decide
  · decide

/-- C2 counterexample: the line "rrule: freq=weekly;interval=1;byday=su" is not
normalized to "RRULE:FREQ=WEEKLY;INTERVAL=1;BYDAY=SU" by either recurrence
normalizer: the main one re-emits it trimmed and unchanged, the uppercasing one
keeps the internal space. -/
theorem C2_counterexample :
    normalizeRecurrenceV3 (some (RecInput.str "rrule: freq=weekly;interval=1;byday=su")) =
      ["rrule: freq=weekly;interval=1;byday=su"] ∧
    normalizeRecurrenceV3 (some (RecInput.str "rrule: freq=weekly;interval=1;byday=su")) ≠
      ["RRULE:FREQ=WEEKLY;INTERVAL=1;BYDAY=SU"] ∧
    normalizeRecurrenceV2 (some "rrule: freq=weekly;interval=1;byday=su") =
      ["RRULE: FREQ=WEEKLY;INTERVAL=1;BYDAY=SU"] ∧
    normalizeRecurrenceV2 (some "rrule: freq=weekly;interval=1;byday=su") ≠
      ["RRULE:FREQ=WEEKLY;INTERVAL=1;BYDAY=SU"] := by
  refine ⟨by decide, by decide, by decide, by decide⟩

/-- Witness for C2 at concrete inputs. -/
theorem C2_amended_witness :
    normalizeRecurrenceV3 (some (RecInput.str "not a rule")) = [] ∧
    normalizeRecurrenceV3 (some (RecInput.str "RRULE:FREQ=DAILY ")) =
      [jsTrim "RRULE:FREQ=DAILY "] ∧
    normalizeRecurrenceV2 (some "rrule:freq=daily") = [jsToUpper "rrule:freq=daily"] :=
  ⟨(C2_amended.1 "not a rule" (by decide)).1,
   C2_amended.2.1 "RRULE:FREQ=DAILY " (by decide),
   C2_amended.2.2.1 "rrule:freq=daily" (by decide) (by decide)⟩

/-- C4 (confirmed): a plain-string date input is parsed as an instant, an
unparseable string fails with the "Invalid time value" error, and a parseable
one is re-emitted as the normalized ISO instant paired with the configured
default time zone; the example "2025-09-21T20:00:00.000Z" maps to itself with
the default zone. -/
theorem C4_plain_string (s tz : String) :
    (jsParseDate s = none →
      normalizeDateInput (some (DateInput.str s)) tz = Except.error "Invalid time value") ∧
    (∀ t, jsParseDate s = some t →
      normalizeDateInput (some (DateInput.str s)) tz =
        Except.ok { dateTime := toISOString t, timeZone := tz }) ∧
    normalizeDateInput (some (DateInput.str "2025-09-21T20:00:00.000Z")) defaultTZstr =
      Except.ok { dateTime := "2025-09-21T20:00:00.000Z", timeZone := defaultTZstr } ∧
    normalizeDateInput (some (DateInput.str "2025-09-21T20:00:00Z")) defaultTZstr =
      Except.ok { dateTime := "2025-09-21T20:00:00.000Z", timeZone := defaultTZstr } := by
  refine ⟨?_, ?_, rfl, rfl⟩
  · intro h
    simp [normalizeDateInput, h]
  · intro t h
    simp [normalizeDateInput, h]

/-- Witness for C4 at concrete inputs. -/
theorem C4_witness :
    normalizeDateInput (some (DateInput.str "not a date")) defaultTZstr =
      Except.error "Invalid time value" ∧
    normalizeDateInput (some (DateInput.str "2025-09-21T20:00:00Z")) defaultTZstr =
      Except.ok { dateTime := toISOString ⟨2025, 9, 21, 20, 0, 0, 0⟩, timeZone := defaultTZstr } :=
  ⟨(C4_plain_string "not a date" defaultTZstr).1 (by rfl),
   (C4_plain_string "2025-09-21T20:00:00Z" defaultTZstr).2.1 ⟨2025, 9, 21, 20, 0, 0, 0⟩ (by rfl)⟩

/-- C6 counterexample: the part_001 event handler answers a GET request with
status 405 and the plain text "Use POST", not with a 200 JSON status payload. -/
theorem C6_counterexample :
    (handlerP1core envW insOkW "GET" (some bodyW)).status = 405 ∧
    (handlerP1core envW insOkW "GET" (some bodyW)).body = RespBody.text "Use POST" ∧
    (handlerP1core envW insOkW "GET" (some bodyW)).status ≠ 200 :=
  ⟨rfl, rfl, by decide⟩

/-- C6 (amended): a GET request is answered with status 200, the fixed JSON
status payload, and no upstream call by the handlers that implement a GET
liveness branch (the main events handler, version 3, and the part_002 variant,
version 1); the part_001 variant has no GET branch and answers GET with
405 "Use POST". -/
theorem C6_amended (env : Env) (ins : InsertPayload → Except JsErr Inserted)
    (body? : Option BodyV3) :
    handlerV3core env ins "GET" body? =
      ⟨200, RespBody.okRoute "/api/events" 3, none, false⟩ ∧
    handlerP2core env ins "GET" body? =
      ⟨200, RespBody.okRoute "/api/events" 1, none, false⟩ ∧
    handlerP1core env ins "GET" body? =
      ⟨405, RespBody.text "Use POST", none, false⟩ :=
  ⟨rfl, rfl, rfl⟩

/-- C7 counterexample: the timed EXDATE builder does not filter dates that fail
the YYYY-MM-DD shape; the malformed date "not-a-date" is stamped into the
emitted line instead of being dropped. -/
theorem C7_counterexample :
    buildTimedExDateLines (some ["not-a-date"]) "2025-09-21T16:00:00"
      "America/Indiana/Indianapolis" =
      ["EXDATE;TZID=America/Indiana/Indianapolis:notadateT160000"] ∧
    buildTimedExDateLines (some ["not-a-date"]) "2025-09-21T16:00:00"
      "America/Indiana/Indianapolis" ≠ [] ∧
    buildTimedExDateLines (some ["not-a-date"]) "2025-09-21T16:00:00"
      "America/Indiana/Indianapolis" ≠
      ["EXDATE;TZID=America/Indiana/Indianapolis:"] :=
  ⟨rfl, by decide, by decide⟩

/-- C7 (amended): the timed EXDATE builder emits one line pairing every
provided date, unfiltered, with the start's time-of-day digits against the
start's zone identifier, and the cited example produces the claimed line;
shape filtering of exception dates exists only in the all-day VALUE=DATE
builder of the earlier revision. -/
theorem C7_amended :
    buildTimedExDateLines (some ["2025-10-05", "2025-10-12"]) "2025-09-21T16:00:00"
      "America/Indiana/Indianapolis" =
      ["EXDATE;TZID=America/Indiana/Indianapolis:20251005T160000,20251012T160000"] ∧
    (∀ ds s tz, ds ≠ ([] : List String) →
      buildTimedExDateLines (some ds) s tz =
        ["EXDATE;TZID=" ++ tz ++ ":" ++
          joinComma (ds.map fun d => jsRemoveChar '-' d ++ "T" ++ startTimeDigits s)]) ∧
    buildExDateLine (some ["2025-10-05", "not-a-date"]) = some "EXDATE;VALUE=DATE:20251005" ∧
    buildExDateLine (some ["not-a-date"]) = none :=
  ⟨rfl, fun ds s tz h => buildTimedExDateLines_eq ds s tz h, rfl, rfl⟩

/-- Witness for C7 at concrete inputs. -/
theorem C7_witness :
    buildTimedExDateLines (some ["2025-12-25"]) "2025-01-01T09:30" "UTC" =
      ["EXDATE;TZID=" ++ "UTC" ++ ":" ++
        joinComma (["2025-12-25"].map fun d =>
          jsRemoveChar '-' d ++ "T" ++ startTimeDigits "2025-01-01T09:30")] :=
  C7_amended.2.1 ["2025-12-25"] "2025-01-01T09:30" "UTC" (by decide)

theorem handlerV3post_call (env : Env) (ins : InsertPayload → Except JsErr Inserted)
    (b : BodyV3) (hcal : truthy env.calendarId = true) (hem : truthy env.saEmail = true)
    (hkey : truthy env.saKey = true) (ht : truthy b.title = true)
    (hs : truthy b.start = true) (he : truthy b.end_ = true) :
    (handlerV3post env ins b).upstreamCall = some (v3payload env b) := by
  cases hi : ins (v3payload env b) with
  | error e =>
    simp [handlerV3post, mustEnv_ok env.calendarId _ hcal,
      calendarClient_ok env hem hkey, ht, hs, he, hi]
  | ok d =>
    simp [handlerV3post, mustEnv_ok env.calendarId _ hcal,
      calendarClient_ok env hem hkey, ht, hs, he, hi]

theorem handlerV4post_call (env : Env) (ins : InsertPayload → Except JsErr Inserted)
    (b : BodyV4) (st en : GDate) (hcal : truthy env.calendarId = true)
    (hem : truthy env.saEmail = true) (hkey : truthy env.saKey = true)
    (ht : truthy b.title = true) (hts : truthyDate b.start = true)
    (hte : truthyDate b.end_ = true)
    (hn1 : normalizeDateInput b.start (envTZ env) = Except.ok st)
    (hn2 : normalizeDateInput b.end_ (envTZ env) = Except.ok en) :
    (handlerV4post env ins b).upstreamCall = some (v4payload b st en) := by
  cases hi : ins (v4payload b st en) with
  | error e =>
    simp [handlerV4post, mustEnv_ok env.calendarId _ hcal,
      calendarClient_ok env hem hkey, ht, hts, hte, hn1, hn2, hi]
  | ok d =>
    simp [handlerV4post, mustEnv_ok env.calendarId _ hcal,
      calendarClient_ok env hem hkey, ht, hts, hte, hn1, hn2, hi]

/-- C1 counterexample: an upstream failure carrying response status 403 and the
nested message "Forbidden" makes the event-creation POST path answer with
status 500 (not 403) and body "Forbidden". -/
theorem C1_counterexample :
    (handlerV3core envW (fun _ => Except.error e403W) "POST" (some bodyW)).status = 500 ∧
    (handlerV3core envW (fun _ => Except.error e403W) "POST" (some bodyW)).body =
      RespBody.text "Forbidden" ∧
    (handlerV3core envW (fun _ => Except.error e403W) "POST" (some bodyW)).status ≠ 403 :=
  ⟨rfl, rfl, by decide⟩

/-- C1 (amended): on an upstream failure the event-creation POST path always
responds with status 500 regardless of any status carried on the upstream
error, with the message chosen by precedence nested envelope message, then the
error's own message, then "Internal error"; only the diagnostic variant's
error mapper propagates a non-zero upstream status. -/
theorem C1_amended (env : Env) (b : BodyV3) (e : JsErr)
    (hcal : truthy env.calendarId = true) (hem : truthy env.saEmail = true)
    (hkey : truthy env.saKey = true) (ht : truthy b.title = true)
    (hs : truthy b.start = true) (he : truthy b.end_ = true) :
    (handlerV3core env (fun _ => Except.error e) "POST" (some b)).status = 500 ∧
    (handlerV3core env (fun _ => Except.error e) "POST" (some b)).body =
      RespBody.text (errMsg e) ∧
    (∀ m, pick (nestedErrMsg e) = some m → errMsg e = m) ∧
    (pick (nestedErrMsg e) = none → ∀ m, pick e.message = some m → errMsg e = m) ∧
    (pick (nestedErrMsg e) = none → pick e.message = none → errMsg e = "Internal error") ∧
    (∀ n, pickNat (e.response.bind JsResp.status) = some n → (mapErrorDiag e).1 = n) := by
  have h0 : handlerV3core env (fun _ => Except.error e) "POST" (some b) =
      handlerV3post env (fun _ => Except.error e) b := rfl
  rw [h0]
  refine ⟨?_, ?_, ?_, ?_, ?_, ?_⟩
  · simp [handlerV3post, mustEnv_ok env.calendarId _ hcal,
      calendarClient_ok env hem hkey, ht, hs, he]
  · simp [handlerV3post, mustEnv_ok env.calendarId _ hcal,
      calendarClient_ok env hem hkey, ht, hs, he]
  · intro m hm
    simp [errMsg, hm, Option.orElse]
  · intro h1 m hm
    simp [errMsg, h1, hm, Option.orElse]
  · intro h1 h2
    simp [errMsg, h1, h2, Option.orElse]
  · intro n hn
    simp [mapErrorDiag, hn]

/-- Witness for C1 (amended) at concrete inputs. -/
theorem C1_amended_witness :
    (handlerV3core envW (fun _ => Except.error e403W) "POST" (some bodyW)).status = 500 ∧
    (handlerV3core envW (fun _ => Except.error e403W) "POST" (some bodyW)).body =
      RespBody.text (errMsg e403W) ∧
    (mapErrorDiag e403W).1 = 403 := by
  have h := C1_amended envW bodyW e403W (by decide) (by decide) (by decide) (by decide)
    (by decide) (by decide)
  exact ⟨h.1, h.2.1, h.2.2.2.2.2 403 (by decide)⟩

/-- C3 (confirmed): a structured date input carrying its own non-empty local
date-time string and zone is normalized to exactly that pair (the literal
string is never converted), an absent zone falls back to the supplied default,
and the identical pair appears as the start of the upstream payload, so
normalizing an already-canonical pair is the identity. -/
theorem C3_structured_date (dt tz fb : String) (hdt : dt ≠ "") (htz : tz ≠ "")
    (env : Env) (ins : InsertPayload → Except JsErr Inserted) (b : BodyV4) (g : GDate)
    (hcal : truthy env.calendarId = true) (hem : truthy env.saEmail = true)
    (hkey : truthy env.saKey = true) (ht : truthy b.title = true)
    (hstart : b.start = some (DateInput.obj dt (some tz)))
    (hte : truthyDate b.end_ = true)
    (hnend : normalizeDateInput b.end_ (envTZ env) = Except.ok g) :
    normalizeDateInput (some (DateInput.obj dt (some tz))) fb =
      Except.ok { dateTime := dt, timeZone := tz } ∧
    normalizeDateInput (some (DateInput.obj dt none)) fb =
      Except.ok { dateTime := dt, timeZone := fb } ∧
    (handlerV4core env ins "POST" (some b)).upstreamCall.map InsertPayload.start =
      some { dateTime := dt, timeZone := tz } := by
  have hdt' : (dt == "") = false := by
    simp only [beq_eq_false_iff_ne, ne_eq]
    exact hdt
  have htz' : (tz == "") = false := by
    simp only [beq_eq_false_iff_ne, ne_eq]
    exact htz
  have hn1 : normalizeDateInput b.start (envTZ env) =
      Except.ok { dateTime := dt, timeZone := tz } := by
    rw [hstart]
    simp [normalizeDateInput, hdt', htz']
  have hts : truthyDate b.start = true := by rw [hstart]; rfl
  refine ⟨?_, ?_, ?_⟩
  · simp [normalizeDateInput, hdt', htz']
  · simp [normalizeDateInput, hdt']
  · have h0 : handlerV4core env ins "POST" (some b) = handlerV4post env ins b := rfl
    rw [h0, handlerV4post_call env ins b { dateTime := dt, timeZone := tz } g
      hcal hem hkey ht hts hte hn1 hnend]
    rfl

/-- Witness for C3 at concrete inputs. -/
theorem C3_witness :
    normalizeDateInput
      (some (DateInput.obj "2025-09-21T16:00:00" (some "America/Indiana/Indianapolis")))
      defaultTZstr =
      Except.ok { dateTime := "2025-09-21T16:00:00",
                  timeZone := "America/Indiana/Indianapolis" } ∧
    (handlerV4core envW insOkW "POST" (some bodyV4objW)).upstreamCall.map InsertPayload.start =
      some { dateTime := "2025-09-21T16:00:00",
             timeZone := "America/Indiana/Indianapolis" } := by
  have h := C3_structured_date "2025-09-21T16:00:00" "America/Indiana/Indianapolis"
    defaultTZstr (by decide) (by decide) envW insOkW bodyV4objW
    { dateTime := "2025-09-21T17:00:00", timeZone := "America/Indiana/Indianapolis" }
    (by decide) (by decide) (by decide) (by decide) (by rfl) (by rfl) (by rfl)
  exact ⟨h.1, h.2.2⟩

/-- C5 (confirmed): a POST whose body lacks a non-empty title, start or end is
answered with status 400 and the plain text "Missing title/start/end", with no
upstream call and no credential use, by both the main handler (given the
calendar id setting is present, which it reads first) and the part_001
variant. -/
theorem C5_missing_fields (env : Env) (ins : InsertPayload → Except JsErr Inserted)
    (b : BodyV3) (hcal : truthy env.calendarId = true)
    (hmiss : truthy b.title = false ∨ truthy b.start = false ∨ truthy b.end_ = false) :
    handlerV3core env ins "POST" (some b) =
      ⟨400, RespBody.text "Missing title/start/end", none, false⟩ ∧
    handlerP1core env ins "POST" (some b) =
      ⟨400, RespBody.text "Missing title/start/end", none, false⟩ := by
  have h3 : handlerV3core env ins "POST" (some b) = handlerV3post env ins b := rfl
  have h1 : handlerP1core env ins "POST" (some b) = handlerP1post env ins b := rfl
  rw [h3, h1]
  constructor
  · simp only [handlerV3post, mustEnv_ok env.calendarId _ hcal]
    rcases hmiss with h | h | h <;> simp [h]
  · simp only [handlerP1post]
    rcases hmiss with h | h | h <;> simp [h]

/-- Witness for C5 at concrete inputs. -/
theorem C5_witness :
    handlerV3core envW insOkW "POST" (some bodyTitleOnlyW) =
      ⟨400, RespBody.text "Missing title/start/end", none, false⟩ ∧
    handlerP1core envW insOkW "POST" (some bodyTitleOnlyW) =
      ⟨400, RespBody.text "Missing title/start/end", none, false⟩ :=
  C5_missing_fields envW insOkW bodyTitleOnlyW (by decide) (Or.inr (Or.inl (by decide)))

/-- C8 counterexample: in the normalizeDateInput revision a request without a
recurrence field still produces an upstream payload whose recurrence field is
present as the empty list, not omitted. -/
theorem C8_counterexample :
    (handlerV4core envW insOkW "POST" (some bodyV4W)).upstreamCall.map
      InsertPayload.recurrence = some (some []) ∧
    (handlerV4core envW insOkW "POST" (some bodyV4W)).upstreamCall.map
      InsertPayload.recurrence ≠ some none :=
  ⟨rfl, by decide⟩

/-- C8 (amended): the main handler sends the recurrence lines as rule lines
followed by the timed exception-date line and omits the field entirely when
that set is empty, while the normalizeDateInput revision always sends the
recurrence array, including when it is empty. -/
theorem C8_amended (env : Env) (ins : InsertPayload → Except JsErr Inserted)
    (b : BodyV3) (b4 : BodyV4) (st en : GDate)
    (hcal : truthy env.calendarId = true) (hem : truthy env.saEmail = true)
    (hkey : truthy env.saKey = true) (ht : truthy b.title = true)
    (hs : truthy b.start = true) (he : truthy b.end_ = true)
    (ht4 : truthy b4.title = true) (hts4 : truthyDate b4.start = true)
    (hte4 : truthyDate b4.end_ = true)
    (hn1 : normalizeDateInput b4.start (envTZ env) = Except.ok st)
    (hn2 : normalizeDateInput b4.end_ (envTZ env) = Except.ok en) :
    (handlerV3core env ins "POST" (some b)).upstreamCall.map InsertPayload.recurrence =
      some (if (normalizeRecurrenceV3 b.recurrence ++
          buildTimedExDateLines b.exDates (b.start.getD "") (envTZ env)).isEmpty
        then none
        else some (normalizeRecurrenceV3 b.recurrence ++
          buildTimedExDateLines b.exDates (b.start.getD "") (envTZ env))) ∧
    (handlerV4core env ins "POST" (some b4)).upstreamCall.map InsertPayload.recurrence =
      some (some (b4.recurrence.getD [])) := by
  constructor
  · have h0 : handlerV3core env ins "POST" (some b) = handlerV3post env ins b := rfl
    rw [h0, handlerV3post_call env ins b hcal hem hkey ht hs he]
    rfl
  · have h0 : handlerV4core env ins "POST" (some b4) = handlerV4post env ins b4 := rfl
    rw [h0, handlerV4post_call env ins b4 st en hcal hem hkey ht4 hts4 hte4 hn1 hn2]
    rfl

/-- Witness for C8 (amended) at concrete inputs. -/
theorem C8_witness :
    (handlerV3core envW insOkW "POST" (some bodyW)).upstreamCall.map
      InsertPayload.recurrence = some none ∧
    (handlerV4core envW insOkW "POST" (some bodyV4W)).upstreamCall.map
      InsertPayload.recurrence = some (some []) := by
  have h := C8_amended envW insOkW bodyW bodyV4W
    { dateTime := "2025-09-21T20:00:00.000Z", timeZone := defaultTZstr }
    { dateTime := "2025-09-21T21:00:00.000Z", timeZone := defaultTZstr }
    (by decide) (by decide) (by decide) (by decide) (by decide) (by decide)
    (by decide) (by decide) (by decide) (by rfl) (by rfl)
  exact ⟨h.1.trans (by rfl), h.2.trans (by rfl)⟩

/-- C9 (confirmed): an Origin on the fixed allow-list is echoed back in the
Access-Control-Allow-Origin header together with Vary: Origin, an origin off
the list yields no Access-Control-Allow-Origin header at all, and the rest of
the response (status, body, upstream call) does not depend on the origin, so
disallowed origins are still processed and answered. -/
theorem C9_cors (env : Env) (ins : InsertPayload → Except JsErr Inserted)
    (method : String) (body? : Option BodyV3) (o : String)
    (h : ORIGINS.contains o = true) :
    ("Access-Control-Allow-Origin", o) ∈ (handlerV3 env ins method (some o) body?).headers ∧
    ("Vary", "Origin") ∈ (handlerV3 env ins method (some o) body?).headers ∧
    ("Access-Control-Allow-Origin", o) ∈ (handlerP1 env ins method (some o) body?).headers ∧
    (∀ o2 : Option String, ORIGINS.contains (o2.getD "") = false →
      ∀ kv ∈ (handlerV3 env ins method o2 body?).headers,
        kv.1 ≠ "Access-Control-Allow-Origin") ∧
    (∀ o2 : Option String, ORIGINS.contains (o2.getD "") = false →
      ∀ kv ∈ (handlerP1 env ins method o2 body?).headers,
        kv.1 ≠ "Access-Control-Allow-Origin") ∧
    (∀ o1 o2 : Option String,
      (handlerV3 env ins method o1 body?).status = (handlerV3 env ins method o2 body?).status ∧
      (handlerV3 env ins method o1 body?).body = (handlerV3 env ins method o2 body?).body ∧
      (handlerV3 env ins method o1 body?).upstreamCall =
        (handlerV3 env ins method o2 body?).upstreamCall) := by
  have hmem0 : o ∈ ORIGINS := by simpa using h
  refine ⟨?_, ?_, ?_, ?_, ?_, fun o1 o2 => ⟨rfl, rfl, rfl⟩⟩
  · show ("Access-Control-Allow-Origin", o) ∈ allowCors (some o)
    simp [allowCors, hmem0]
  · show ("Vary", "Origin") ∈ allowCors (some o)
    simp [allowCors, hmem0]
  · show ("Access-Control-Allow-Origin", o) ∈ allowCorsP1 (some o)
    simp [allowCorsP1, hmem0]
  · intro o2 h2 kv hkv
    have h2' : ¬ o2.getD "" ∈ ORIGINS := by simpa using h2
    have hmem : kv ∈ allowCors o2 := hkv
    simp [allowCors, h2'] at hmem
    rcases hmem with rfl | rfl <;> decide
  · intro o2 h2 kv hkv
    have h2' : ¬ o2.getD "" ∈ ORIGINS := by simpa using h2
    have hmem : kv ∈ allowCorsP1 o2 := hkv
    simp [allowCorsP1, h2'] at hmem
    rcases hmem with rfl | rfl <;> decide

/-- Witness for C9 at concrete inputs. -/
theorem C9_witness :
    ("Access-Control-Allow-Origin", "http://localhost:3000") ∈
      (handlerV3 envW insOkW "GET" (some "http://localhost:3000") (some bodyW)).headers :=
  (C9_cors envW insOkW "GET" (some bodyW) "http://localhost:3000" (by decide)).1

/-- C10 (confirmed): when the start local string has no 'T' separator the
stamps use the time digits "000000"; when the time part has the five-character
"HH:mm" length the seconds ":00" are appended before the colons are dropped;
and for dates of the documented YYYY-MM-DD shape and a start time of a
documented shape, every stamp in the emitted EXDATE line is exactly eight
digits, a 'T', then six digits. -/
theorem C10_stamp_shape (ds : List String) (s tz : String) :
    (jsSplitChar 'T' s = [s] → startTimeDigits s = "000000") ∧
    (∀ t, (jsSplitChar 'T' s).get? 1 = some t → t.length = 5 →
      startTimeDigits s = jsRemoveChar ':' (t ++ ":00")) ∧
    (ds ≠ [] →
      buildTimedExDateLines (some ds) s tz =
        ["EXDATE;TZID=" ++ tz ++ ":" ++
          joinComma (ds.map fun d => jsRemoveChar '-' d ++ "T" ++ startTimeDigits s)]) ∧
    ((∀ d ∈ ds, IsDateShape d) → TimeShapeHyp s →
      ((ds.map fun d => jsRemoveChar '-' d ++ "T" ++ startTimeDigits s).all
        isStampShapeB) = true) := by
  refine ⟨startTimeDigits_noT s, fun t ht h5 => startTimeDigits_hm s t ht h5,
    buildTimedExDateLines_eq ds s tz, ?_⟩
  intro hds hts
  rw [List.all_eq_true]
  intro st hst
  rw [List.mem_map] at hst
  obtain ⟨d, hd, rfl⟩ := hst
  exact isStampShapeB_of (dateShape_digits (hds d hd)) (timeShape_digits hts)

/-- Witness for C10 at concrete inputs. -/
theorem C10_witness :
    ((["2025-10-05", "2025-10-12"].map fun d =>
      jsRemoveChar '-' d ++ "T" ++ startTimeDigits "2025-09-21T16:00").all
      isStampShapeB) = true := by
  refine (C10_stamp_shape ["2025-10-05", "2025-10-12"] "2025-09-21T16:00"
    "America/Indiana/Indianapolis").2.2.2 ?_ ?_
  · intro d hd
    rcases List.mem_cons.mp hd with h1 | hd2
    · subst h1
      exact ⟨'2', '0', '2', '5', '1', '0', '0', '5', by decide, rfl⟩
    · rcases List.mem_cons.mp hd2 with h2 | hd3
      · subst h2
        exact ⟨'2', '0', '2', '5', '1', '0', '1', '2', by decide, rfl⟩
      · cases hd3
  · exact Or.inr ⟨"16:00", by decide, Or.inl ⟨'1', '6', '0', '0', by decide, rfl⟩⟩
